import Mathlib

/-!
A shallow embedding of `app.py` (AI-Powered Medical Assistant).

Pure string manipulation is modelled on `List Char` so that every operation is
structurally recursive and kernel-evaluable.  The two network backends (Google
Custom Search and the OpenAI chat completion endpoint) are modelled as explicit
inputs: a `SearchResponse` value stands for the outcome of the
`requests.get(...)` call (either a transport/HTTP/parse failure or a parsed
list of result items), and a function `String → CompletionResult` stands for
the completion backend, applied to the exact prompt the code builds.
Exceptions become `Option`/sum-like case analysis: the `try/except` blocks of
the source are the `match` arms below.
-/

/-- Python's `needle in haystack` substring test, on character lists:
`startsWithChars needle haystack` is true when `haystack` begins with
`needle`. -/
def startsWithChars : List Char → List Char → Bool
  | [], _ => true
  | _ :: _, [] => false
  | c :: cs, d :: ds => c == d && startsWithChars cs ds

/-- `containsChars haystack needle` is true when `needle` occurs contiguously
inside `haystack` (Python's `needle in haystack`). -/
def containsChars : List Char → List Char → Bool
  | [], needle => needle.isEmpty
  | d :: ds, needle => startsWithChars needle (d :: ds) || containsChars ds needle

/-- Python `needle in haystack` on strings. -/
def strContains (haystack needle : String) : Bool :=
  containsChars haystack.data needle.data

/-- Python `s.lower()` (ASCII case folding, as `str.lower` performs on the
ASCII keywords involved here): lowercase every character. -/
def lowerStr (s : String) : String :=
  ⟨s.data.map Char.toLower⟩

/-- Python `s.strip()`: drop leading and trailing whitespace. -/
def trimStr (s : String) : String :=
  ⟨((s.data.dropWhile Char.isWhitespace).reverse.dropWhile Char.isWhitespace).reverse⟩

/-- Python `sep.join(xs)`. -/
def joinSep (sep : String) : List String → String
  | [] => ""
  | [x] => x
  | x :: xs => x ++ sep ++ joinSep sep xs

/-- `TRUSTED_SITES` from `app.py`: the ten domain-restriction terms. -/
def TRUSTED_SITES : List String :=
  ["site:nhs.uk",
   "site:nih.gov",
   "site:mayoclinic.org",
   "site:who.int",
   "site:cdc.gov",
   "site:clevelandclinic.org",
   "site:health.harvard.edu",
   "site:pubmed.ncbi.nlm.nih.gov",
   "site:webmd.com",
   "site:medlineplus.gov"]

/-- One parsed item of the search response.  The Python code reads the JSON
object's `title`, `link` and `snippet` fields; a field can be absent from the
object, hence `Option`. -/
structure Item where
  title : Option String
  link : Option String
  snippet : Option String
deriving DecidableEq, Repr

/-- Outcome of the search-backend call, as observed by `get_medical_snippets`
after `requests.get`, `raise_for_status` and `response.json()`:
`failure` covers a network error, a non-2xx status and an unparsable body
(each raises, and the `except` catches every exception); `success items` is a
parsed body whose `items` field holds the given list (a parsed body with no
`items` field is `success []`, from `.get("items", [])`). -/
inductive SearchResponse where
  | failure
  | success (items : List Item)
deriving DecidableEq, Repr

/-- The sort key of `items.sort(key=lambda x: 0 if "nhs.uk" in x.get("link", "") else 1)`:
a missing `link` defaults to `""` for the key only. -/
def nhsKey (i : Item) : Nat :=
  if strContains (i.link.getD "") "nhs.uk" then 0 else 1

/-- Insert `x` into a list already sorted by `nhsKey`, after every element of
strictly smaller key and before the first element of equal or larger key
(so that, processing right-to-left, earlier items with equal keys stay first). -/
def insertKeyed (x : Item) : List Item → List Item
  | [] => [x]
  | y :: ys => if nhsKey y < nhsKey x then y :: insertKeyed x ys else x :: y :: ys

/-- `items.sort(key=...)` of the source: Python's `list.sort` is a stable
ascending sort by the key; this insertion sort computes exactly that. -/
def sortByKey : List Item → List Item
  | [] => []
  | x :: xs => insertKeyed x (sortByKey xs)

/-- `(item["title"], item["link"], item["snippet"])`: direct subscripting, so a
missing field raises `KeyError`, modelled as `none`. -/
def extractTriple (i : Item) : Option (String × String × String) :=
  match i.title, i.link, i.snippet with
  | some t, some l, some s => some (t, l, s)
  | _, _, _ => none

/-- The list comprehension `[(item["title"], item["link"], item["snippet"]) for item in items]`:
the first missing field raises out of the whole comprehension, hence `none`
when any item is incomplete. -/
def extractTriples : List Item → Option (List (String × String × String))
  | [] => some []
  | i :: is =>
    match extractTriple i, extractTriples is with
    | some t, some ts => some (t :: ts)
    | _, _ => none

/-- The `params` dictionary's query: `f"{query} ({domain_query})"` with
`domain_query = " OR ".join(TRUSTED_SITES)`, together with the requested
result count `num`.  Only the request is shaped by `num_results`; the
response itself is an input of `get_medical_snippets`. -/
def searchParams (query : String) (num_results : Nat) : String × Nat :=
  (query ++ " (" ++ joinSep " OR " TRUSTED_SITES ++ ")", num_results)

/-- `get_medical_snippets(query, num_results=5)` as a function of the backend's
response.  The whole body sits in `try/except Exception: return []`, so both a
failed call and a `KeyError` during extraction produce `[]`.  On success the
items are stably sorted with nhs.uk links first, then the three fields are
read by direct subscripting. -/
def get_medical_snippets (resp : SearchResponse) (num_results : Nat) :
    List (String × String × String) :=
  match resp with
  | SearchResponse.failure => []
  | SearchResponse.success items =>
    match extractTriples (sortByKey items) with
    | some ts => ts
    | none => []

/-- `RISK_SNIPPETS` from `app.py`, in definition order. -/
def RISK_SNIPPETS : List (String × String) :=
  [("antibiotics", "Misuse or overuse of antibiotics can lead to antibiotic resistance, making infections difficult to treat. Always complete your prescribed antibiotic course."),
   ("vaccines", "Misconception: Vaccines cause autism. Extensive research shows vaccines are safe and vital for preventing serious diseases."),
   ("ibuprofen", "Long-term use or high doses of ibuprofen can increase the risk of gastrointestinal bleeding and kidney damage."),
   ("acetaminophen", "Taking too much acetaminophen (paracetamol) can lead to liver damage."),
   ("aspirin", "Aspirin can cause gastrointestinal ulcers or bleeding when used frequently or at high doses."),
   ("turmeric", "Turmeric can interact with blood thinners and other medications, increasing bleeding risks."),
   ("methotrexate", "Methotrexate requires regular monitoring of blood tests due to potential liver, kidney, or blood complications."),
   ("statins", "Statins rarely cause severe muscle pain; serious side effects should be medically monitored."),
   ("antidepressants", "Misconception: Antidepressants are addictive. They are not addictive but require medical supervision."),
   ("chest pain", "Chest pain could indicate a serious condition like a heart attack. Immediate medical attention is crucial."),
   ("headache", "A sudden severe headache could be a sign of a stroke or aneurysm; seek immediate medical help."),
   ("fever", "Mild fevers help the body fight infection; high or persistent fever requires medical evaluation."),
   ("back pain", "Chronic lower back pain is often due to lifestyle factors or posture; avoid long-term reliance on painkillers without addressing the cause."),
   ("fatigue", "Persistent fatigue may indicate anemia, thyroid disorders, or depression; always discuss prolonged fatigue with a healthcare provider."),
   ("rash", "Certain rashes can indicate severe allergic reactions or infections; immediate attention is required if accompanied by fever or breathing difficulties.")]

/-- `get_risk_snippets(query)`: lowercase the query once, then loop over the
dictionary in definition order appending the advisory of every keyword
contained in the lowercased query. -/
def get_risk_snippets (query : String) : List String :=
  RISK_SNIPPETS.foldl
    (fun matched p => if strContains (lowerStr query) p.1 then matched ++ [p.2] else matched)
    []

/-- The gender selectbox default. -/
def defaultGender : String := "Prefer not to say"

/-- The augmented query of line 126:
`f"For a {user_age}-year-old {user_gender.lower()}, {question}" if user_age or user_gender != "Prefer not to say" else question`.
Python truthiness of `user_age` (a text input) is non-emptiness. -/
def full_query (user_age user_gender question : String) : String :=
  if user_age ≠ "" ∨ user_gender ≠ defaultGender then
    "For a " ++ user_age ++ "-year-old " ++ lowerStr user_gender ++ ", " ++ question
  else question

/-- Outcome of `client.chat.completions.create(...)` followed by reading the
first choice's content: either that content string, or the exception's text
`e` caught by `except Exception as e`. -/
inductive CompletionResult where
  | success (content : String)
  | failure (err : String)
deriving DecidableEq, Repr

/-- The fixed disclaimer suffix of line 78. -/
def disclaimer : String :=
  "\n\n**Disclaimer:** This response is not a substitute for professional medical advice. Always consult your healthcare provider."

/-- The fixed no-sources message of line 51. -/
def noSourcesMsg : String :=
  "Sorry, I couldn\x27t find reliable sources for this question right now."

/-- `context = "\n".join(f"- **{title}**: {snippet}" for title, link, snippet in snippets)`. -/
def mkContext (snippets : List (String × String × String)) : String :=
  joinSep "\n" (snippets.map (fun t => "- **" ++ t.1 ++ "**: " ++ t.2.2))

/-- The prompt f-string of lines 54–71, with `context` and `question`
substituted. -/
def mkPrompt (question context : String) : String :=
  "\nYou are a helpful and friendly medical assistant.\n\nYour job is to provide a clear and easy-to-understand answer using only the trusted snippets below. \nIf the question describes symptoms, list possible causes, including both common and serious conditions where relevant. \nUse plain English with short sentences (5–7 sentences max). \nAvoid medical jargon, and explain in simple terms. \nAlways include a safety reminder like \"Talk to a doctor to be sure.\"\n\nAfter the answer, include a short list of the sources used.\n\nSnippets:\n"
    ++ context ++ "\n\nQuestion: " ++ question ++ "\n\nAnswer:\n"

/-- `answer_medical_question(question)`, instrumented: `complete` is the
completion backend applied to the exact prompt built by the code, `resp` is
the search backend's response to the query the function issues, and the
second component of the result counts how many times the completion backend
was invoked (the chat call occurs exactly once, inside the `try`).  The first
component is the returned pair `(answer text, sources)`. -/
def answer_medical_question (complete : String → CompletionResult)
    (resp : SearchResponse) (question : String) :
    (String × List (String × String)) × Nat :=
  let snippets := get_medical_snippets resp 5
  match snippets with
  | [] => ((noSourcesMsg, []), 0)
  | t :: ts =>
    let context := mkContext (t :: ts)
    let sources := (t :: ts).map (fun s => (s.1, s.2.1))
    match complete (mkPrompt question context) with
    | CompletionResult.success content => ((trimStr content ++ disclaimer, sources), 1)
    | CompletionResult.failure e => (("OpenAI API Error: " ++ e, []), 1)

/-- One element of `st.session_state.history` (lines 144–148). -/
structure HistoryEntry where
  question : String
  answer : String
  sources : List (String × String)
deriving DecidableEq, Repr

/-- What one press of the "Get Answer" button with a non-empty question
produces (lines 125–148). -/
structure SubmitResult where
  history : List HistoryEntry
  advisories : List String
  answer : String
  sources : List (String × String)
deriving DecidableEq, Repr

/-- The button handler of lines 125–148: build the augmented query, answer it,
compute the advisories from the raw question, and append a history entry
recording the raw question together with the generated answer and sources. -/
def handleSubmit (complete : String → CompletionResult) (resp : SearchResponse)
    (user_age user_gender question : String) (history : List HistoryEntry) :
    SubmitResult :=
  let fq := full_query user_age user_gender question
  let ans := answer_medical_question complete resp fq
  let risk := get_risk_snippets question
  { history := history ++ [⟨question, ans.1.1, ans.1.2⟩]
    advisories := risk
    answer := ans.1.1
    sources := ans.1.2 }

/-- The closed severity enumeration of the spec (§3, §4.5). -/
inductive SeverityTag where
  | Immediate
  | Urgent
  | Routine
deriving DecidableEq, Repr

/-- Modelled from the spec: the severity classifier (`classify_severity`,
spec §4.5 and §8) is described by the spec but absent from `src/app.py`; its
keyword groups are likewise not in the source, so they are parameters here.
Per the spec: test the question case-insensitively for a substring from the
ordered keyword groups, highest priority first (Immediate, then Urgent);
return the tag of the first group with any matching keyword; otherwise the
default Routine. -/
def classify_severity (immediateKeywords urgentKeywords : List String)
    (question : String) : SeverityTag :=
  if immediateKeywords.any (fun k => strContains (lowerStr question) (lowerStr k)) then
    SeverityTag.Immediate
  else if urgentKeywords.any (fun k => strContains (lowerStr question) (lowerStr k)) then
    SeverityTag.Urgent
  else SeverityTag.Routine

example : full_query "34" "Male" "What causes headaches?" =
    "For a 34-year-old male, What causes headaches?" := by decide

example : full_query "" "Prefer not to say" "hi" = "hi" := by decide

example : strContains (lowerStr "Can I take Ibuprofen?") "ibuprofen" = true := by decide

example : classify_severity ["chest pain"] ["dizziness"] "I have chest pain and dizziness" =
    SeverityTag.Immediate := by decide

example : get_medical_snippets (SearchResponse.success
    [⟨some "B", some "https://example.com/b", some "sb"⟩,
     ⟨some "A", some "https://www.nhs.uk/a", some "sa"⟩,
     ⟨some "C", some "https://example.com/c", some "sc"⟩]) 5 =
    [("A", "https://www.nhs.uk/a", "sa"),
     ("B", "https://example.com/b", "sb"),
     ("C", "https://example.com/c", "sc")] := by decide

example : get_medical_snippets (SearchResponse.success
    [⟨some "T", some "https://example.com", none⟩]) 5 = [] := by decide

/-! ### Helper lemmas (shared infrastructure, not claim theorems) -/

theorem nhsKey_eq_zero_iff (i : Item) :
    nhsKey i = 0 ↔ strContains (i.link.getD "") "nhs.uk" = true := by
  unfold nhsKey
  split <;> simp_all

theorem nhsKey_eq_one_iff (i : Item) :
    nhsKey i = 1 ↔ strContains (i.link.getD "") "nhs.uk" = false := by
  unfold nhsKey
  split <;> simp_all

theorem insertKeyed_of_key_zero (x : Item) (h : nhsKey x = 0) :
    ∀ l : List Item, insertKeyed x l = x :: l := by
  intro l
  cases l with
  | nil => rfl
  | cons y ys =>
    unfold insertKeyed
    rw [h]
    simp

theorem insertKeyed_append (x : Item) (hx : nhsKey x = 1) :
    ∀ (a b : List Item), (∀ y ∈ a, nhsKey y = 0) → (∀ y ∈ b, nhsKey y = 1) →
      insertKeyed x (a ++ b) = a ++ x :: b := by
  intro a
  induction a with
  | nil =>
    intro b _ hb
    cases b with
    | nil => rfl
    | cons z zs =>
      have hz : nhsKey z = 1 := hb z (List.mem_cons_self z zs)
      simp only [List.nil_append, insertKeyed, hx, hz]
      simp
  | cons w a ih =>
    intro b ha hb
    have hw : nhsKey w = 0 := ha w (List.mem_cons_self w a)
    have ha' : ∀ y ∈ a, nhsKey y = 0 := fun y hy => ha y (List.mem_cons_of_mem w hy)
    simp only [List.cons_append, insertKeyed, hw, hx]
    rw [if_pos (by omega)]
    exact congrArg (List.cons w) (ih b ha' hb)

theorem sortByKey_partition (l : List Item) :
    sortByKey l =
      l.filter (fun i => strContains (i.link.getD "") "nhs.uk")
        ++ l.filter (fun i => !(strContains (i.link.getD "") "nhs.uk")) := by
  induction l with
  | nil => rfl
  | cons x xs ih =>
    show insertKeyed x (sortByKey xs) = _
    rw [ih]
    cases hp : strContains (x.link.getD "") "nhs.uk" with
    | true =>
      have hx : nhsKey x = 0 := (nhsKey_eq_zero_iff x).mpr hp
      rw [insertKeyed_of_key_zero x hx]
      simp [List.filter_cons, hp]
    | false =>
      have hx : nhsKey x = 1 := (nhsKey_eq_one_iff x).mpr hp
      rw [insertKeyed_append x hx _ _
        (fun y hy => (nhsKey_eq_zero_iff y).mpr (List.mem_filter.mp hy).2)
        (fun y hy => (nhsKey_eq_one_iff y).mpr (by
          have := (List.mem_filter.mp hy).2
          simpa using this))]
      simp [List.filter_cons, hp]

theorem sortByKey_perm (l : List Item) : List.Perm (sortByKey l) l := by
  rw [sortByKey_partition]
  exact List.filter_append_perm _ l

theorem mem_sortByKey (i : Item) (l : List Item) : i ∈ sortByKey l ↔ i ∈ l :=
  (sortByKey_perm l).mem_iff

theorem length_sortByKey (l : List Item) : (sortByKey l).length = l.length :=
  (sortByKey_perm l).length_eq

theorem extractTriples_eq_none {i : Item} :
    ∀ {l : List Item}, i ∈ l → extractTriple i = none → extractTriples l = none := by
  intro l
  induction l with
  | nil => intro h; cases h
  | cons x xs ih =>
    intro hmem hnone
    rcases List.mem_cons.mp hmem with heq | htail
    · subst heq
      simp [extractTriples, hnone]
    · have := ih htail hnone
      cases hx : extractTriple x <;> simp [extractTriples, hx, this]

theorem extractTriples_eq_some :
    ∀ {l : List Item}, (∀ i ∈ l, (extractTriple i).isSome) →
      extractTriples l = some (l.filterMap extractTriple) ∧
        (l.filterMap extractTriple).length = l.length := by
  intro l
  induction l with
  | nil => intro _; simp [extractTriples]
  | cons x xs ih =>
    intro hall
    have hx : (extractTriple x).isSome := hall x (List.mem_cons_self x xs)
    obtain ⟨t, ht⟩ : ∃ t, extractTriple x = some t :=
      ⟨(extractTriple x).get hx, (Option.eq_some_of_isSome hx)⟩
    have ihx := ih (fun i hi => hall i (List.mem_cons_of_mem x hi))
    constructor
    · simp [extractTriples, ht, ihx.1, List.filterMap_cons]
    · have h2 := ihx.2
      simp only [List.filterMap_cons, ht, List.length_cons]
      omega

theorem full_query_of_augmented (age gender q : String)
    (h : ¬(age = "" ∧ gender = defaultGender)) :
    full_query age gender q =
      "For a " ++ age ++ "-year-old " ++ lowerStr gender ++ ", " ++ q := by
  unfold full_query
  rw [if_pos (not_and_or.mp h)]

theorem full_query_ne (age gender q : String)
    (h : ¬(age = "" ∧ gender = defaultGender)) :
    full_query age gender q ≠ q := by
  rw [full_query_of_augmented age gender q h]
  intro hq
  have hlen := congrArg String.length hq
  simp only [String.length_append] at hlen
  have h6 : ("For a " : String).length = 6 := rfl
  omega

theorem answer_of_empty (complete : String → CompletionResult)
    (resp : SearchResponse) (q : String)
    (h : get_medical_snippets resp 5 = []) :
    answer_medical_question complete resp q = ((noSourcesMsg, []), 0) := by
  simp [answer_medical_question, h]

theorem risk_foldl (q : String) :
    ∀ (l : List (String × String)) (acc : List String),
      l.foldl (fun matched p =>
          if strContains (lowerStr q) p.1 then matched ++ [p.2] else matched) acc
        = acc ++ (l.filter (fun p => strContains (lowerStr q) p.1)).map Prod.snd := by
  intro l
  induction l with
  | nil => intro acc; simp
  | cons p ps ih =>
    intro acc
    cases h : strContains (lowerStr q) p.1 <;>
      simp [List.foldl_cons, List.filter_cons, h, ih, List.append_assoc]

/-! ### Claim theorems -/

/-- C1: for every question, the severity classification returns exactly one
tag from the closed set Immediate/Urgent/Routine; Immediate whenever any
Immediate-group keyword matches case-insensitively (even if Urgent keywords
also match), Urgent when no Immediate keyword but some Urgent keyword
matches, and the default Routine when neither group matches. -/
theorem classify_severity_cases (imm urg : List String) (q : String) :
    (classify_severity imm urg q = SeverityTag.Immediate ∨
      classify_severity imm urg q = SeverityTag.Urgent ∨
      classify_severity imm urg q = SeverityTag.Routine) ∧
    (imm.any (fun k => strContains (lowerStr q) (lowerStr k)) = true →
      classify_severity imm urg q = SeverityTag.Immediate) ∧
    (imm.any (fun k => strContains (lowerStr q) (lowerStr k)) = false →
      urg.any (fun k => strContains (lowerStr q) (lowerStr k)) = true →
      classify_severity imm urg q = SeverityTag.Urgent) ∧
    (imm.any (fun k => strContains (lowerStr q) (lowerStr k)) = false →
      urg.any (fun k => strContains (lowerStr q) (lowerStr k)) = false →
      classify_severity imm urg q = SeverityTag.Routine) := by
  unfold classify_severity
  cases hi : imm.any (fun k => strContains (lowerStr q) (lowerStr k)) <;>
    cases hu : urg.any (fun k => strContains (lowerStr q) (lowerStr k)) <;>
      simp

/-- Witness for C1 at the spec's own example: "chest pain" (Immediate group)
beats "dizziness" (Urgent group). -/
theorem classify_severity_cases_witness :
    (["chest pain"].any
        (fun k => strContains (lowerStr "I have chest pain and dizziness") (lowerStr k)) = true) ∧
    (["dizziness"].any
        (fun k => strContains (lowerStr "I have chest pain and dizziness") (lowerStr k)) = true) ∧
    classify_severity ["chest pain"] ["dizziness"] "I have chest pain and dizziness" =
      SeverityTag.Immediate :=
  ⟨by decide, by decide,
    (classify_severity_cases ["chest pain"] ["dizziness"]
      "I have chest pain and dizziness").2.1 (by decide)⟩

/-- C5: whenever the search-backend call fails in any way (network error,
non-2xx status after `raise_for_status`, or an unparsable body), the whole
body of `get_medical_snippets` raises into `except Exception: return []`, so
the function returns the empty list and never propagates an exception (it is
a total function of the response). -/
theorem get_medical_snippets_failure_empty (n : Nat) :
    get_medical_snippets SearchResponse.failure n = [] := rfl

/-- C6: if the retrieved snippet list is empty, `answer_medical_question`
returns the fixed no-sources message with an empty source list, and the
completion backend is invoked zero times. -/
theorem answer_no_sources_skips_completion (complete : String → CompletionResult)
    (resp : SearchResponse) (q : String)
    (h : get_medical_snippets resp 5 = []) :
    answer_medical_question complete resp q = ((noSourcesMsg, []), 0) :=
  answer_of_empty complete resp q h

/-- Witness for C6: a failed search yields no snippets, the fixed message, no
sources and zero completion calls. -/
theorem answer_no_sources_skips_completion_witness :
    get_medical_snippets SearchResponse.failure 5 = [] ∧
    answer_medical_question (fun _ => CompletionResult.failure "x")
        SearchResponse.failure "q" = ((noSourcesMsg, []), 0) :=
  ⟨rfl, answer_no_sources_skips_completion (fun _ => CompletionResult.failure "x")
    SearchResponse.failure "q" rfl⟩

/-- C9: the augmented query equals the raw question exactly when the age is
empty and the gender is the default "Prefer not to say"; otherwise it is
"For a {age}-year-old {gender lowercased}, " followed by the raw question. -/
theorem full_query_spec (age gender q : String) :
    (full_query age gender q = q ↔ (age = "" ∧ gender = defaultGender)) ∧
    (¬(age = "" ∧ gender = defaultGender) →
      full_query age gender q =
        "For a " ++ age ++ "-year-old " ++ lowerStr gender ++ ", " ++ q) := by
  constructor
  · constructor
    · intro heq
      by_contra hne
      exact full_query_ne age gender q hne heq
    · rintro ⟨h1, h2⟩
      subst h1
      subst h2
      unfold full_query
      rw [if_neg (by simp)]
  · intro h
    exact full_query_of_augmented age gender q h

/-- Witness for C9 at the spec's example values. -/
theorem full_query_spec_witness :
    full_query "34" "Male" "What causes headaches?" =
      "For a 34-year-old male, What causes headaches?" := by
  have h := (full_query_spec "34" "Male" "What causes headaches?").2 (by decide)
  rw [h]
  decide

/-- C10: a press of "Get Answer" appends a history entry whose question field
is the raw question as submitted (never the augmented query, which differs
from the raw question whenever augmentation happened), whose answer was
generated from the augmented query, and the advisory list shown is computed
from the raw question. -/
theorem history_records_raw_question (complete : String → CompletionResult)
    (resp : SearchResponse) (age gender q : String) (hist : List HistoryEntry) :
    (handleSubmit complete resp age gender q hist).history =
      hist ++ [⟨q, (answer_medical_question complete resp (full_query age gender q)).1.1,
                  (answer_medical_question complete resp (full_query age gender q)).1.2⟩] ∧
    (handleSubmit complete resp age gender q hist).advisories = get_risk_snippets q ∧
    (¬(age = "" ∧ gender = defaultGender) → full_query age gender q ≠ q) :=
  ⟨rfl, rfl, fun h => full_query_ne age gender q h⟩

/-- Witness for C10: with demographics set, the stored question is the raw
question, which differs from the augmented query the answer was generated
from. -/
theorem history_records_raw_question_witness :
    (handleSubmit (fun _ => CompletionResult.failure "x") SearchResponse.failure
        "34" "Male" "Q" []).history = [⟨"Q", noSourcesMsg, []⟩] ∧
    full_query "34" "Male" "Q" ≠ "Q" := by
  have h := history_records_raw_question (fun _ => CompletionResult.failure "x")
    SearchResponse.failure "34" "Male" "Q" []
  refine ⟨?_, h.2.2 (by decide)⟩
  rw [h.1]
  decide

/-- C2 counterexample: the code never truncates its return value — a backend
response carrying six well-formed items makes `get_medical_snippets` return
six triples although `num_results = 5` was requested. -/
theorem get_medical_snippets_no_truncation_cex :
    ¬ ((get_medical_snippets (SearchResponse.success
        [⟨some "T1", some "https://example.com/1", some "s1"⟩,
         ⟨some "T2", some "https://example.com/2", some "s2"⟩,
         ⟨some "T3", some "https://example.com/3", some "s3"⟩,
         ⟨some "T4", some "https://example.com/4", some "s4"⟩,
         ⟨some "T5", some "https://example.com/5", some "s5"⟩,
         ⟨some "T6", some "https://example.com/6", some "s6"⟩]) 5).length ≤ 5) := by
  decide

/-- C2 (amended): the returned list has exactly one triple per backend item
(whenever every item carries all three fields); no truncation to the
requested count happens — the cap is only passed to the backend inside the
request parameters. -/
theorem get_medical_snippets_length_eq (items : List Item) (n : Nat)
    (hall : ∀ i ∈ items, (extractTriple i).isSome) :
    (get_medical_snippets (SearchResponse.success items) n).length = items.length := by
  have hall2 : ∀ i ∈ sortByKey items, (extractTriple i).isSome :=
    fun i hi => hall i ((mem_sortByKey i items).mp hi)
  have h := extractTriples_eq_some hall2
  simp only [get_medical_snippets, h.1]
  rw [h.2, length_sortByKey]

/-- Witness for the amended C2: the six-item response yields six triples. -/
theorem get_medical_snippets_length_eq_witness :
    (get_medical_snippets (SearchResponse.success
        [⟨some "T1", some "https://example.com/1", some "s1"⟩,
         ⟨some "T2", some "https://example.com/2", some "s2"⟩,
         ⟨some "T3", some "https://example.com/3", some "s3"⟩,
         ⟨some "T4", some "https://example.com/4", some "s4"⟩,
         ⟨some "T5", some "https://example.com/5", some "s5"⟩,
         ⟨some "T6", some "https://example.com/6", some "s6"⟩]) 5).length = 6 := by
  have h := get_medical_snippets_length_eq
    [⟨some "T1", some "https://example.com/1", some "s1"⟩,
     ⟨some "T2", some "https://example.com/2", some "s2"⟩,
     ⟨some "T3", some "https://example.com/3", some "s3"⟩,
     ⟨some "T4", some "https://example.com/4", some "s4"⟩,
     ⟨some "T5", some "https://example.com/5", some "s5"⟩,
     ⟨some "T6", some "https://example.com/6", some "s6"⟩] 5 (by decide)
  rw [h]
  decide

/-- C4 counterexample: an item missing its `snippet` field does not yield a
triple with an empty-string field — the `KeyError` of the direct
subscripting is caught by the surrounding handler and the whole call
returns the empty list instead of one triple for the one item. -/
theorem get_medical_snippets_missing_field_cex :
    get_medical_snippets (SearchResponse.success
        [⟨some "T", some "https://www.nhs.uk/x", none⟩]) 5 = [] ∧
    (get_medical_snippets (SearchResponse.success
        [⟨some "T", some "https://www.nhs.uk/x", none⟩]) 5).length ≠ 1 := by
  decide

/-- C4 (amended): extraction reads `title`, `link` and `snippet` by direct
subscripting, so if any item of a successful response lacks one of the three
fields, the whole call returns the empty list (only the sort key defaults a
missing `link` to the empty string). -/
theorem get_medical_snippets_missing_field (items : List Item) (n : Nat)
    (h : ∃ i, i ∈ items ∧ extractTriple i = none) :
    get_medical_snippets (SearchResponse.success items) n = [] := by
  obtain ⟨i, hi, hn⟩ := h
  have hnone := extractTriples_eq_none ((mem_sortByKey i items).mpr hi) hn
  simp only [get_medical_snippets, hnone]

/-- Witness for the amended C4. -/
theorem get_medical_snippets_missing_field_witness :
    get_medical_snippets (SearchResponse.success
        [⟨some "T2", some "https://example.com/y", none⟩]) 7 = [] :=
  get_medical_snippets_missing_field
    [⟨some "T2", some "https://example.com/y", none⟩] 7
    ⟨⟨some "T2", some "https://example.com/y", none⟩, by decide, rfl⟩

/-- C7: on a successful response whose items all carry the three fields, the
output of `get_medical_snippets` is the stable partition of the backend
order: every item whose link contains "nhs.uk" precedes every item whose
link does not, each side keeping the backend's relative order. -/
theorem get_medical_snippets_nhs_first (items : List Item) (n : Nat)
    (hall : ∀ i ∈ items, (extractTriple i).isSome) :
    get_medical_snippets (SearchResponse.success items) n =
      (items.filter (fun i => strContains (i.link.getD "") "nhs.uk")).filterMap extractTriple
        ++ (items.filter
              (fun i => !(strContains (i.link.getD "") "nhs.uk"))).filterMap extractTriple := by
  have hall2 : ∀ i ∈ sortByKey items, (extractTriple i).isSome :=
    fun i hi => hall i ((mem_sortByKey i items).mp hi)
  have h := extractTriples_eq_some hall2
  simp only [get_medical_snippets, h.1]
  rw [sortByKey_partition, List.filterMap_append]

/-- Witness for C7 at the spec's example: raw order [B(non-nhs), A(nhs.uk),
C(non-nhs)] becomes [A, B, C]. -/
theorem get_medical_snippets_nhs_first_witness :
    get_medical_snippets (SearchResponse.success
        [⟨some "B", some "https://example.com/b", some "sb"⟩,
         ⟨some "A", some "https://www.nhs.uk/a", some "sa"⟩,
         ⟨some "C", some "https://example.com/c", some "sc"⟩]) 5 =
      [("A", "https://www.nhs.uk/a", "sa"),
       ("B", "https://example.com/b", "sb"),
       ("C", "https://example.com/c", "sc")] := by
  have h := get_medical_snippets_nhs_first
    [⟨some "B", some "https://example.com/b", some "sb"⟩,
     ⟨some "A", some "https://www.nhs.uk/a", some "sa"⟩,
     ⟨some "C", some "https://example.com/c", some "sc"⟩] 5 (by decide)
  rw [h]
  decide

set_option maxRecDepth 8192 in
/-- C3 counterexample: with a non-empty snippet list and a failing completion
backend, `answer_medical_question` returns "OpenAI API Error: boom", which
does not end with the disclaimer suffix — so not every return path carries
the disclaimer. -/
theorem answer_disclaimer_cex :
    ¬ ∃ s, (answer_medical_question (fun _ => CompletionResult.failure "boom")
        (SearchResponse.success [⟨some "T", some "https://www.nhs.uk/a", some "S"⟩])
        "q").1.1 = s ++ disclaimer := by
  intro hex
  obtain ⟨s, hs⟩ := hex
  have h1 : (answer_medical_question (fun _ => CompletionResult.failure "boom")
      (SearchResponse.success [⟨some "T", some "https://www.nhs.uk/a", some "S"⟩])
      "q").1.1 = "OpenAI API Error: boom" := by decide
  rw [h1] at hs
  have hlen := congrArg String.length hs
  rw [String.length_append] at hlen
  have h2 : ("OpenAI API Error: boom" : String).length = 22 := rfl
  have h3 : (23 : Nat) ≤ disclaimer.length := by decide
  omega

/-- C3 (amended): the disclaimer suffix is appended exactly on the successful
synthesis path; the empty-snippet path returns the fixed no-sources message
and the completion-failure path returns the error string unchanged, neither
with the disclaimer appended. -/
theorem answer_disclaimer_paths (complete : String → CompletionResult)
    (resp : SearchResponse) (q : String) :
    (get_medical_snippets resp 5 = [] →
      (answer_medical_question complete resp q).1.1 = noSourcesMsg) ∧
    (∀ t ts c, get_medical_snippets resp 5 = t :: ts →
      complete (mkPrompt q (mkContext (t :: ts))) = CompletionResult.success c →
      (answer_medical_question complete resp q).1.1 = trimStr c ++ disclaimer) ∧
    (∀ t ts e, get_medical_snippets resp 5 = t :: ts →
      complete (mkPrompt q (mkContext (t :: ts))) = CompletionResult.failure e →
      (answer_medical_question complete resp q).1.1 = "OpenAI API Error: " ++ e) := by
  refine ⟨?_, ?_, ?_⟩
  · intro h
    rw [answer_of_empty complete resp q h]
  · intro t ts c hsnip hc
    simp [answer_medical_question, hsnip, hc]
  · intro t ts e hsnip he
    simp [answer_medical_question, hsnip, he]

/-- Witness for the amended C3: on the success path the disclaimer is
appended. -/
theorem answer_disclaimer_paths_witness :
    get_medical_snippets (SearchResponse.success
        [⟨some "A", some "https://www.nhs.uk/a", some "sa"⟩]) 5 =
      [("A", "https://www.nhs.uk/a", "sa")] ∧
    (answer_medical_question (fun _ => CompletionResult.success "ok")
        (SearchResponse.success [⟨some "A", some "https://www.nhs.uk/a", some "sa"⟩])
        "q").1.1 = trimStr "ok" ++ disclaimer := by
  refine ⟨by decide, ?_⟩
  exact (answer_disclaimer_paths (fun _ => CompletionResult.success "ok")
      (SearchResponse.success [⟨some "A", some "https://www.nhs.uk/a", some "sa"⟩])
      "q").2.1
    ("A", "https://www.nhs.uk/a", "sa") [] "ok" (by decide) rfl

/-- C8: `get_risk_snippets` returns exactly the advisories of the dictionary
keywords contained case-insensitively in the question, in the dictionary's
definition order; all matches appear, a non-matching question yields the
empty list, and every dictionary keyword is already lowercase (so the single
lowercasing of the question realises case-insensitive matching). -/
theorem get_risk_snippets_spec (q : String) :
    get_risk_snippets q =
      (RISK_SNIPPETS.filter (fun p => strContains (lowerStr q) p.1)).map Prod.snd ∧
    (∀ s, s ∈ get_risk_snippets q ↔
      ∃ k, (k, s) ∈ RISK_SNIPPETS ∧ strContains (lowerStr q) k = true) ∧
    ((∀ p ∈ RISK_SNIPPETS, strContains (lowerStr q) p.1 = false) →
      get_risk_snippets q = []) ∧
    (∀ p ∈ RISK_SNIPPETS, lowerStr p.1 = p.1) := by
  have heq : get_risk_snippets q =
      (RISK_SNIPPETS.filter (fun p => strContains (lowerStr q) p.1)).map Prod.snd := by
    unfold get_risk_snippets
    rw [risk_foldl q RISK_SNIPPETS []]
    simp
  refine ⟨heq, ?_, ?_, by decide⟩
  · intro s
    rw [heq]
    simp only [List.mem_map, List.mem_filter]
    constructor
    · rintro ⟨p, ⟨hp, hc⟩, hs⟩
      refine ⟨p.1, ?_, hc⟩
      rw [← hs, Prod.mk.eta]
      exact hp
    · rintro ⟨k, hk, hc⟩
      exact ⟨(k, s), ⟨hk, hc⟩, rfl⟩
  · intro hnone
    rw [heq]
    have : RISK_SNIPPETS.filter (fun p => strContains (lowerStr q) p.1) = [] := by
      rw [List.filter_eq_nil_iff]
      intro p hp
      simp [hnone p hp]
    rw [this]
    rfl

/-- Witness for C8 at the spec's example: the ibuprofen and aspirin
advisories are both returned for "Can I take Ibuprofen with Aspirin
daily?". -/
theorem get_risk_snippets_spec_witness :
    "Long-term use or high doses of ibuprofen can increase the risk of gastrointestinal bleeding and kidney damage."
        ∈ get_risk_snippets "Can I take Ibuprofen with Aspirin daily?" ∧
    "Aspirin can cause gastrointestinal ulcers or bleeding when used frequently or at high doses."
        ∈ get_risk_snippets "Can I take Ibuprofen with Aspirin daily?" := by
  constructor
  · exact ((get_risk_snippets_spec "Can I take Ibuprofen with Aspirin daily?").2.1 _).mpr
      ⟨"ibuprofen", by decide, by decide⟩
  · exact ((get_risk_snippets_spec "Can I take Ibuprofen with Aspirin daily?").2.1 _).mpr
      ⟨"aspirin", by decide, by decide⟩
